import Mathlib

set_option allowUnsafeReducibility true

attribute [local semireducible] Rat.add Rat.mul Rat.inv Rat.sub

/-!
Verification development for the psychometric-reporter score processor and
chart renderer (`app/services/test_logic.py`, `app/services/chart_factory.py`,
`app/models/psychometric.py`).

Modelling conventions:
* Python numbers (floats produced by `float(...)`, scores, angles, radii) are
  modelled as exact rationals `ℚ`; the finite-decimal fragment of Python
  `float()` parsing is modelled (no `inf`/`nan`, no underscore separators,
  ASCII digits only), and `round(x, 1)` is modelled as exact half-to-even
  rounding of the rational `x` at one decimal.
* Python exceptions that the code can actually raise are modelled with
  `Except String`; a returned `.error` corresponds to an uncaught exception.
* `json.loads` is modelled by an executable recursive-descent parser
  `json_loads` over a JSON value type (objects keep their key/value pairs in
  order; lookups take the last binding, matching Python dict construction).
-/

/-- JSON values, the result type of the `json.loads` model. -/
inductive Json where
  | null : Json
  | bool : Bool → Json
  | num : ℚ → Json
  | str : String → Json
  | arr : List Json → Json
  | obj : List (String × Json) → Json
deriving Repr

/-- Last-binding lookup in a JSON object, matching Python `dict` semantics
where duplicate keys keep the last value. -/
def jsonGet (fields : List (String × Json)) (k : String) : Option Json :=
  (fields.reverse.find? (fun p => p.1 = k)).map (·.2)

/-- JSON whitespace characters accepted by Python's `json` module. -/
def jsonWs (c : Char) : Bool :=
  c = ' ' || c = '\t' || c = '\n' || c = '\r'

def skipWs (cs : List Char) : List Char := cs.dropWhile jsonWs

def isHexDigit (c : Char) : Bool :=
  c.isDigit || ('a' ≤ c && c ≤ 'f') || ('A' ≤ c && c ≤ 'F')

def hexVal (c : Char) : Nat :=
  if c.isDigit then c.toNat - 48
  else if 'a' ≤ c && c ≤ 'f' then c.toNat - 87
  else c.toNat - 55

/-- Body of a JSON string literal (after the opening quote): the decoded
characters and the remaining input. Escapes follow Python's strict `json`
mode; raw control characters below 0x20 are rejected. -/
def parseStrBody : Nat → List Char → Option (List Char × List Char)
  | 0, _ => none
  | _, [] => none
  | fuel + 1, c :: rest =>
    if c = '"' then some ([], rest)
    else if c = '\\' then
      match rest with
      | [] => none
      | e :: rest' =>
        if e = 'u' then
          match rest' with
          | h1 :: h2 :: h3 :: h4 :: rest'' =>
            if isHexDigit h1 && isHexDigit h2 && isHexDigit h3 && isHexDigit h4 then
              let n := ((hexVal h1 * 16 + hexVal h2) * 16 + hexVal h3) * 16 + hexVal h4
              match parseStrBody fuel rest'' with
              | some (s, r) => some (Char.ofNat n :: s, r)
              | none => none
            else none
          | _ => none
        else
          let dec : Option Char :=
            if e = '"' then some '"'
            else if e = '\\' then some '\\'
            else if e = '/' then some '/'
            else if e = 'b' then some (Char.ofNat 8)
            else if e = 'f' then some (Char.ofNat 12)
            else if e = 'n' then some '\n'
            else if e = 'r' then some '\r'
            else if e = 't' then some '\t'
            else none
          match dec with
          | none => none
          | some d =>
            match parseStrBody fuel rest' with
            | some (s, r) => some (d :: s, r)
            | none => none
    else if c.toNat < 32 then none
    else
      match parseStrBody fuel rest with
      | some (s, r) => some (c :: s, r)
      | none => none

def digitsToNat (ds : List Char) : Nat :=
  ds.foldl (fun a c => a * 10 + (c.toNat - 48)) 0

/-- JSON number literal: `-? int frac? exp?` with the leading-zero
restriction of the JSON grammar. Returns its exact rational value. -/
def parseNum (cs : List Char) : Option (ℚ × List Char) :=
  let (sign, cs1) : ℚ × List Char :=
    match cs with
    | '-' :: rest => (-1, rest)
    | _ => (1, cs)
  let ip := cs1.takeWhile Char.isDigit
  let cs2 := cs1.dropWhile Char.isDigit
  if ip.isEmpty then none
  else if ip.length > 1 && ip.headD '0' = '0' then none
  else
    let (fp, cs3) : List Char × List Char :=
      match cs2 with
      | '.' :: rest => (rest.takeWhile Char.isDigit, rest.dropWhile Char.isDigit)
      | _ => ([], cs2)
    if cs2 ≠ cs3 && fp.isEmpty then none
    else
      let mant : ℚ := sign * (digitsToNat ip + (digitsToNat fp : ℚ) / 10 ^ fp.length)
      match cs3 with
      | e :: rest =>
        if e = 'e' || e = 'E' then
          let (esign, rest1) : ℤ × List Char :=
            match rest with
            | '+' :: r => (1, r)
            | '-' :: r => (-1, r)
            | _ => (1, rest)
          let ed := rest1.takeWhile Char.isDigit
          let rest2 := rest1.dropWhile Char.isDigit
          if ed.isEmpty then none
          else some (mant * (10 : ℚ) ^ (esign * (digitsToNat ed : ℤ)), rest2)
        else some (mant, cs3)
      | [] => some (mant, [])

mutual
/-- One JSON value at the head of the input (leading whitespace already
skipped); returns the value and the unconsumed remainder. -/
def parseVal : Nat → List Char → Option (Json × List Char)
  | 0, _ => none
  | fuel + 1, cs =>
    match cs with
    | [] => none
    | c :: rest =>
      if c = '\x7b' then parseObjItems fuel (skipWs rest)
      else if c = '[' then parseArrItems fuel (skipWs rest)
      else if c = '"' then
        match parseStrBody (rest.length + 1) rest with
        | some (s, r) => some (Json.str (String.mk s), r)
        | none => none
      else if c = 't' then
        match cs with
        | 't' :: 'r' :: 'u' :: 'e' :: r => some (Json.bool true, r)
        | _ => none
      else if c = 'f' then
        match cs with
        | 'f' :: 'a' :: 'l' :: 's' :: 'e' :: r => some (Json.bool false, r)
        | _ => none
      else if c = 'n' then
        match cs with
        | 'n' :: 'u' :: 'l' :: 'l' :: r => some (Json.null, r)
        | _ => none
      else if c = '-' || c.isDigit then
        match parseNum cs with
        | some (q, r) => some (Json.num q, r)
        | none => none
      else none

/-- Items of a JSON array, input positioned right after `[` (whitespace
skipped). -/
def parseArrItems : Nat → List Char → Option (Json × List Char)
  | 0, _ => none
  | fuel + 1, cs =>
    match cs with
    | ']' :: rest => some (Json.arr [], rest)
    | _ =>
      match parseVal fuel cs with
      | none => none
      | some (v, r) => parseArrRest fuel v r

/-- Remaining items of a JSON array after the first value of the current
group has been read. -/
def parseArrRest : Nat → Json → List Char → Option (Json × List Char)
  | 0, _, _ => none
  | fuel + 1, v, r =>
    match skipWs r with
    | ']' :: rest => some (Json.arr [v], rest)
    | ',' :: rest =>
      match parseVal fuel (skipWs rest) with
      | none => none
      | some (v2, r2) =>
        match parseArrRest fuel v2 r2 with
        | some (Json.arr vs, rest2) => some (Json.arr (v :: vs), rest2)
        | _ => none
    | _ => none

/-- Members of a JSON object, input positioned right after the opening brace
(whitespace skipped). -/
def parseObjItems : Nat → List Char → Option (Json × List Char)
  | 0, _ => none
  | fuel + 1, cs =>
    match cs with
    | '\x7d' :: rest => some (Json.obj [], rest)
    | '"' :: rest =>
      match parseStrBody (rest.length + 1) rest with
      | none => none
      | some (k, r) =>
        match skipWs r with
        | ':' :: r2 =>
          match parseVal fuel (skipWs r2) with
          | none => none
          | some (v, r3) => parseObjRest fuel (String.mk k) v r3
        | _ => none
    | _ => none

/-- Remaining members of a JSON object after the current key/value pair. -/
def parseObjRest : Nat → String → Json → List Char → Option (Json × List Char)
  | 0, _, _, _ => none
  | fuel + 1, k, v, r =>
    match skipWs r with
    | '\x7d' :: rest => some (Json.obj [(k, v)], rest)
    | ',' :: rest =>
      match skipWs rest with
      | '"' :: r1 =>
        match parseStrBody (r1.length + 1) r1 with
        | none => none
        | some (k2, r2) =>
          match skipWs r2 with
          | ':' :: r3 =>
            match parseVal fuel (skipWs r3) with
            | none => none
            | some (v2, r4) =>
              match parseObjRest fuel (String.mk k2) v2 r4 with
              | some (Json.obj kvs, rest2) => some (Json.obj ((k, v) :: kvs), rest2)
              | _ => none
          | _ => none
      | _ => none
    | _ => none
end

/-- Model of Python `json.loads` on a string: parse one JSON document and
require only whitespace to remain; `none` models `json.JSONDecodeError`. -/
def json_loads (s : String) : Option Json :=
  match parseVal (s.length + 1) (skipWs s.data) with
  | some (j, rest) => if (skipWs rest).isEmpty then some j else none
  | none => none

/-- Strip leading and trailing ASCII whitespace, the fragment of Python
`str.strip()` relevant here. -/
def trimChars (cs : List Char) : List Char :=
  ((cs.dropWhile Char.isWhitespace).reverse.dropWhile Char.isWhitespace).reverse

/-- Model of Python `float(str)` on its finite-decimal fragment: optional
surrounding whitespace, optional sign, decimal digits with an optional
decimal point (at least one digit overall) and an optional exponent.
`none` models `ValueError`. -/
def parseFloat (s : String) : Option ℚ :=
  let cs0 := trimChars s.data
  let (sign, cs1) : ℚ × List Char :=
    match cs0 with
    | '+' :: rest => (1, rest)
    | '-' :: rest => (-1, rest)
    | _ => (1, cs0)
  let ip := cs1.takeWhile Char.isDigit
  let cs2 := cs1.dropWhile Char.isDigit
  let (fp, cs3) : List Char × List Char :=
    match cs2 with
    | '.' :: rest => (rest.takeWhile Char.isDigit, rest.dropWhile Char.isDigit)
    | _ => ([], cs2)
  if ip.isEmpty && fp.isEmpty then none
  else
    let mant : ℚ := sign * (digitsToNat ip + (digitsToNat fp : ℚ) / 10 ^ fp.length)
    match cs3 with
    | [] => some mant
    | e :: rest =>
      if e = 'e' || e = 'E' then
        let (esign, rest1) : ℤ × List Char :=
          match rest with
          | '+' :: r => (1, r)
          | '-' :: r => (-1, r)
          | _ => (1, rest)
        let ed := rest1.takeWhile Char.isDigit
        let rest2 := rest1.dropWhile Char.isDigit
        if ed.isEmpty || !rest2.isEmpty then none
        else some (mant * (10 : ℚ) ^ (esign * (digitsToNat ed : ℤ)))
      else none

/-- Round a rational to the nearest integer, ties to even (Python's rounding
mode for `round`). -/
def roundHalfEven (q : ℚ) : ℤ :=
  let f := q.floor
  let r := q - f
  if r < 1 / 2 then f
  else if 1 / 2 < r then f + 1
  else if f % 2 = 0 then f else f + 1

/-- Model of Python `round(x, 1)` on exact rationals. -/
def round1 (q : ℚ) : ℚ := (roundHalfEven (q * 10) : ℚ) / 10

/-- Model of Python `str.split(sep)` for a single-character separator:
split at every occurrence, keeping empty pieces. -/
def splitChars (sep : Char) : List Char → List (List Char)
  | [] => [[]]
  | x :: xs =>
    let r := splitChars sep xs
    if x = sep then [] :: r
    else
      match r with
      | [] => [[x]]
      | h :: t => (x :: h) :: t

def pySplit (s : String) (sep : Char) : List String :=
  (splitChars sep s.data).map String.mk

/-- `TestProcessor.parse_score`: fraction strings `n/d` become
`round(n/d*100, 1)` (or `0.0` for a zero denominator); plain strings are
parsed directly; every failure path yields `0.0` (the `except` clause). -/
def parse_score (s : String) : ℚ :=
  if s.data.contains '/' then
    match (pySplit s '/').map parseFloat with
    | [some n, some d] => if d = 0 then 0 else round1 (n / d * 100)
    | _ => 0
  else (parseFloat s).getD 0

/-- `TestProcessor.get_benchmark`: four-tier classification by descending
thresholds. -/
def get_benchmark (score : ℚ) : String :=
  if 75 ≤ score then "High"
  else if 60 ≤ score then "Above Average"
  else if 40 ≤ score then "Average"
  else "Below Average"

/-- `SectionData` (pydantic model in `app/models/psychometric.py`); the three
optional text fields default to `""`. -/
structure SectionData where
  «section» : String
  description : Option String := some ""
  representation : Option String := some ""
  interpretation : Option String := some ""
  section_score : String
deriving DecidableEq, Repr

/-- `RawPsychometricTest` (pydantic model): aliased input record. -/
structure RawPsychometricTest where
  key_name : String
  category : String
  json_result : Option String := none
deriving DecidableEq, Repr

/-- `ProcessedSection` (pydantic model). -/
structure ProcessedSection where
  «section» : String
  score_percentage : ℚ
  original_score : String
  interpretation : String
  benchmark : Option String := none
deriving DecidableEq, Repr

/-- A chart artifact, identified by the renderer that produced it and the
arguments it was called with (the encoded PNG itself is a deterministic
function of these arguments). -/
inductive Chart where
  | bar (labels : List String) (scores : List ℚ) (color : String)
  | radar (labels : List String) (scores : List ℚ)
  | donut (labels : List String) (scores : List ℚ)
  | seven_segment (labels : List String) (scores : List ℚ)
  | vark_circles (scores : List ℚ) (labels : List String)
  | variable_radius (labels : List String) (scores : List ℚ)
deriving DecidableEq, Repr

/-- `ProcessedTest` (pydantic model); `charts` is the Python dict as an
ordered association list. -/
structure ProcessedTest where
  test_name : String
  description : Option String := none
  key_name : String
  sections : List ProcessedSection
  charts : List (String × Chart)
deriving DecidableEq, Repr

/-- `SectionData(**s)`: keyword expansion requires a JSON object
(`TypeError` otherwise), then pydantic validates: `section` and
`section_score` must be strings, the optional text fields must be strings or
null and default to `""`; extra keys are ignored. An `.error` models the
uncaught `TypeError`/`ValidationError`. -/
def mkSectionData (j : Json) : Except String SectionData :=
  match j with
  | Json.obj fields =>
    let optField (k : String) : Except String (Option String) :=
      match jsonGet fields k with
      | none => .ok (some "")
      | some (Json.str s) => .ok (some s)
      | some Json.null => .ok none
      | some _ => .error "ValidationError"
    match jsonGet fields "section", jsonGet fields "section_score" with
    | some (Json.str sec), some (Json.str sc) =>
      match optField "description", optField "representation",
          optField "interpretation" with
      | .ok d, .ok r, .ok i =>
        .ok { «section» := sec, description := d, representation := r,
              interpretation := i, section_score := sc }
      | _, _, _ => .error "ValidationError"
    | _, _ => .error "ValidationError"
  | _ => .error "TypeError"

/-- `RawPsychometricTest.parsed_sections`: empty/absent payload or a JSON
decode failure or a non-dict document yield `[]`; the `sections` value is
iterated and each entry is validated. Only `json.JSONDecodeError` is caught,
so a `sections` value that is a non-empty string/dict or a non-iterable, or
an entry rejected by `SectionData`, is an uncaught exception (`.error`).
Iterating an empty string or empty dict yields no entries. -/
def parsed_sections (raw : RawPsychometricTest) : Except String (List SectionData) :=
  match raw.json_result with
  | none => .ok []
  | some s =>
    if s = "" then .ok []
    else
      match json_loads s with
      | none => .ok []
      | some (Json.obj fields) =>
        match jsonGet fields "sections" with
        | none => .ok []
        | some (Json.arr l) => l.mapM mkSectionData
        | some (Json.str t) => if t = "" then .ok [] else .error "TypeError"
        | some (Json.obj kvs) => if kvs.isEmpty then .ok [] else .error "TypeError"
        | some _ => .error "TypeError"
      | some _ => .ok []

/-- Python truthiness of an optional string: `None` and `""` are falsy. -/
def pyTruthy : Option String → Bool
  | none => false
  | some s => !(s = "")

/-- The interpretation resolution in `TestProcessor.process_raw`:
`section.interpretation`, and if that is falsy,
`section.description or section.representation or "No interpretation available."`. -/
def resolveInterp (sec : SectionData) : String :=
  if pyTruthy sec.interpretation then sec.interpretation.getD ""
  else if pyTruthy sec.description then sec.description.getD ""
  else if pyTruthy sec.representation then sec.representation.getD ""
  else "No interpretation available."

/-- The body of the per-section loop in `TestProcessor.process_raw`. -/
def processSection (sec : SectionData) : ProcessedSection :=
  let pct := parse_score sec.section_score
  { «section» := sec.«section», score_percentage := pct,
    original_score := sec.section_score,
    interpretation := resolveInterp sec,
    benchmark := some (get_benchmark pct) }

/-- Model of Python `str.lower()` (ASCII fragment). -/
def pyLower (s : String) : String := String.mk (s.data.map Char.toLower)

/-- The geometric content of `ChartFactory.generate_radial_bar_chart`:
rings listed innermost first. Arc sweeps are recorded in degrees
(`score/100 * 360`, the code's `(x/100) * 2π` radians). -/
structure RadialChart where
  ringScores : List ℚ
  ringLabels : List String
  ringColors : List String
  ringSweepDeg : List ℚ
  ringRadii : List ℚ
  legendLabels : List String
deriving DecidableEq, Repr

def radialBaseColors : List String :=
  ["#8ED1E6", "#8D8FB9", "#C586B5", "#E78FA2", "#F5E556", "#7FB97A", "#28D4A9"]

/-- Order on `(score, label, color)` triples used by the radial chart's
`data.sort(key=lambda x: x[0])`. -/
def scoreLE (a b : ℚ × String × String) : Prop := a.1 ≤ b.1

instance : DecidableRel scoreLE := fun a b => inferInstanceAs (Decidable (a.1 ≤ b.1))

instance : IsTotal (ℚ × String × String) scoreLE := ⟨fun a b => le_total a.1 b.1⟩

instance : IsTrans (ℚ × String × String) scoreLE := ⟨fun _ _ _ => le_trans⟩

/-- `ChartFactory.generate_radial_bar_chart`. Python's stable `list.sort`
with key `x[0]` is modelled by `List.insertionSort` on the score component
(any stable sort computes the same list). `zip(*data)` on an empty data list
raises `ValueError`, hence the `.error` case. Ring radii follow
`inner_radius + i*(bar_width + gap)` with `inner_radius = 2`,
`bar_width = 1`, `gap = 0.1`. -/
def generate_radial_bar_chart (labels : List String) (scores : List ℚ) :
    Except String RadialChart :=
  let colors_to_use := (radialBaseColors ++ radialBaseColors).take labels.length
  let data := scores.zip (labels.zip colors_to_use)
  let sorted := List.insertionSort scoreLE data
  match sorted with
  | [] => .error "ValueError"
  | _ =>
    let sorted_scores := sorted.map (·.1)
    .ok {
      ringScores := sorted_scores
      ringLabels := sorted.map (·.2.1)
      ringColors := sorted.map (·.2.2)
      ringSweepDeg := sorted_scores.map (fun x => x / 100 * 360)
      ringRadii := (List.range sorted.length).map (fun i : ℕ => 2 + (i : ℚ) * (1 + 1 / 10))
      legendLabels := (sorted.map (·.2.1)).reverse }

/-- One slice of `ChartFactory.generate_seven_segment_chart`. -/
structure SegSlice where
  label : String
  value : ℚ
  color : String
  theta1 : ℚ
  theta2 : ℚ
  radius : ℚ
deriving DecidableEq, Repr

def segBaseColors : List String :=
  ["#FF5252", "#FFD600", "#00E676", "#00B0FF", "#AA00FF", "#FF6D00", "#F50057"]

/-- The slice loop of `generate_seven_segment_chart`: slice `i` reads
`colors[i]`; an out-of-range index is Python's uncaught `IndexError`. -/
def segSlices (colors : List String) (n : ℕ) : ℕ → List (String × ℚ) → Except String (List SegSlice)
  | _, [] => .ok []
  | i, (l, v) :: rest =>
    match colors.get? i with
    | none => .error "IndexError"
    | some c =>
      let angle_step : ℚ := 360 / (n : ℚ)
      let r0 := v / 100 * 1
      let slice : SegSlice :=
        { label := l
          value := v
          color := c
          theta1 := 90 - ((i : ℚ) + 1) * angle_step
          theta2 := 90 - (i : ℚ) * angle_step
          radius := if r0 < 1 / 20 then 1 / 20 else r0 }
      match segSlices colors n (i + 1) rest with
      | .error e => .error e
      | .ok rs => .ok (slice :: rs)

/-- `ChartFactory.generate_seven_segment_chart`: the per-slice colors are the
7 base colors doubled and truncated to the number of label/score pairs. -/
def generate_seven_segment_chart (labels : List String) (scores : List ℚ) :
    Except String (List SegSlice) :=
  let data := labels.zip scores
  let colors := (segBaseColors ++ segBaseColors).take data.length
  segSlices colors data.length 0 data

/-- One wedge of `ChartFactory.generate_variable_radius_chart`. -/
structure VRWedge where
  label : String
  value : ℚ
  theta1 : ℚ
  theta2 : ℚ
  rimRadius : ℚ
  wedgeWidth : ℚ
  color : String
deriving DecidableEq, Repr

def vrBaseColors : List String :=
  ["#4DB6AC", "#26A69A", "#009688", "#00897B", "#00796B", "#00695C"]

def vr_inner_void_r : ℚ := 1 / 5

def vr_max_rim_r : ℚ := 21 / 20

/-- Python `max` over a list (the empty case is never used by the code,
which guards with `if scores`). -/
def pyMax : List ℚ → ℚ
  | [] => 0
  | x :: xs => xs.foldl max x

/-- `max_value = max(scores) if scores and max(scores) > 0 else 100`. -/
def vr_max_value (scores : List ℚ) : ℚ :=
  if scores ≠ [] ∧ 0 < pyMax scores then pyMax scores else 100

/-- Rim radius of one wedge: linear interpolation of `value/max_value`
between the inner void radius and the outer rim radius, floored at
`inner_void_r + 0.1` so zero-height wedges stay visible. -/
def vr_rim_radius (max_value value : ℚ) : ℚ :=
  let r := vr_inner_void_r + (vr_max_rim_r - vr_inner_void_r) * (value / max_value)
  if r < vr_inner_void_r + 1 / 10 then vr_inner_void_r + 1 / 10 else r

/-- `ChartFactory.generate_variable_radius_chart`: equal angular slices of
`360/len(scores)` degrees starting at 90°, clockwise, with a 2° gap split
between the two sides of each slice. -/
def generate_variable_radius_chart (labels : List String) (scores : List ℚ) :
    List VRWedge :=
  let n := scores.length
  let max_value := vr_max_value scores
  (labels.zip scores).enum.map (fun p =>
    let angle_step : ℚ := 360 / (n : ℚ)
    let ts : ℚ := 90 - (p.1 : ℚ) * angle_step - 1
    let te : ℚ := 90 - ((p.1 : ℚ) + 1) * angle_step + 1
    let rim := vr_rim_radius max_value p.2.2
    { label := p.2.1
      value := p.2.2
      theta1 := min ts te
      theta2 := max ts te
      rimRadius := rim
      wedgeWidth := rim - vr_inner_void_r
      color := vrBaseColors.getD (p.1 % vrBaseColors.length) "" })

def gauge_total_span : ℚ := 270

def gauge_start_angle : ℚ := 225

/-- The needle angle (degrees) computed by `ChartFactory.generate_gauge`:
`start_angle - total_span * (value - min_val) / (max_val - min_val)`.
(When `max_val = min_val` the Python code raises `ZeroDivisionError`; the
claims only concern `max_val ≠ min_val`.) -/
def gauge_needle_angle (value min_val max_val : ℚ) : ℚ :=
  gauge_start_angle - gauge_total_span * (value - min_val) / (max_val - min_val)

/-- `charts[...] = ChartFactory.generate_*` dispatch on the lowercased
key in `TestProcessor.process_raw`; the radial and seven-segment renderers
can raise, which aborts `process_raw`. -/
def dispatch_charts (key : String) (labels : List String) (scores : List ℚ) :
    Except String (List (String × Chart)) :=
  if key = "second" then .ok [("bar", Chart.bar labels scores "#4a90e2")]
  else if key = "first" then .ok [("radar", Chart.radar labels scores)]
  else if key = "third" then
    match generate_radial_bar_chart labels scores with
    | .error e => .error e
    | .ok _ => .ok [("donut", Chart.donut labels scores)]
  else if key = "fourth" then
    match generate_seven_segment_chart labels scores with
    | .error e => .error e
    | .ok _ => .ok [("seven_segment", Chart.seven_segment labels scores)]
  else if key = "fifth" then .ok [("vark_circles", Chart.vark_circles scores labels)]
  else .ok [("variable_radius", Chart.variable_radius labels scores)]

/-- The `test_name`/`description` resolution at the top of `process_raw`:
both default (`category` and `""`), overridden by the JSON object's
`test_name`/`description` values when the payload parses as a dict. The raw
JSON values are kept because pydantic validates them only when
`ProcessedTest` is constructed. -/
def resolve_name_json (raw : RawPsychometricTest) : Json × Json :=
  match raw.json_result with
  | none => (Json.str raw.category, Json.str "")
  | some s =>
    if s = "" then (Json.str raw.category, Json.str "")
    else
      match json_loads s with
      | some (Json.obj fields) =>
        ((jsonGet fields "test_name").getD (Json.str raw.category),
         (jsonGet fields "description").getD (Json.str ""))
      | _ => (Json.str raw.category, Json.str "")

/-- The construction `ProcessedTest(test_name=..., description=..., ...)` at
the end of `process_raw`, including the pydantic validation of the possibly
JSON-sourced `test_name` (must be a string) and `description` (string or
`None`). -/
def finalize (nd : Json × Json) (key_name : String) (sections : List SectionData)
    (charts : List (String × Chart)) : Except String ProcessedTest :=
  match nd.1, nd.2 with
  | Json.str tn, Json.str td =>
    .ok { test_name := tn, description := some td, key_name := key_name,
          sections := sections.map processSection, charts := charts }
  | Json.str tn, Json.null =>
    .ok { test_name := tn, description := none, key_name := key_name,
          sections := sections.map processSection, charts := charts }
  | _, _ => .error "ValidationError"

/-- `TestProcessor.process_raw`. `.error` models an uncaught Python
exception (pydantic `ValidationError`, `TypeError` or renderer
`IndexError`/`ValueError`). -/
def process_raw (raw : RawPsychometricTest) : Except String ProcessedTest :=
  match parsed_sections raw with
  | .error e => .error e
  | .ok sections =>
    let labels := sections.map (·.«section»)
    let scores := sections.map (fun s => parse_score s.section_score)
    let key := if raw.key_name = "" then "default" else pyLower raw.key_name
    match (if scores.isEmpty then .ok [] else dispatch_charts key labels scores :
        Except String (List (String × Chart))) with
    | .error e => .error e
    | .ok charts => finalize (resolve_name_json raw) raw.key_name sections charts

/-! ## Concrete instances used by witnesses and counterexamples,
and the claim-side reference definitions -/

/-- The rim radius C8 prescribes verbatim for every non-empty score list:
normalization by `max(scores)` unconditionally (`score/max(scores)`,
not `score/100`), with the visibility floor. -/
def vr_rim_radius_claim (scores : List ℚ) (value : ℚ) : ℚ :=
  let r := vr_inner_void_r + (vr_max_rim_r - vr_inner_void_r) * (value / pyMax scores)
  if r < vr_inner_void_r + 1 / 10 then vr_inner_void_r + 1 / 10 else r

def L15 : List String := List.replicate 15 "x"

def S15a : List ℚ := 99 :: List.replicate 14 0

def S15b : List ℚ := List.replicate 14 (0 : ℚ) ++ [99]

def Json.isObj : Json → Bool
  | .obj _ => true
  | _ => false

def RAW2 : RawPsychometricTest :=
  { key_name := "first"
    category := "Cat"
    json_result := some "\x7b\"sections\": [\x7b\x7d]\x7d" }

def RAW2b : RawPsychometricTest :=
  { key_name := "x"
    category := "Cat"
    json_result := some "not json" }

/-- The dispatch table exactly as the claim states it: lowercased key
`"second"` → bar, `"first"` → radar, `"third"` → radial/donut, `"fourth"` →
wedge-segment, `"fifth"` → quadrant-circle, anything else → the default
variable-radius wedge chart. -/
def chartTableSpec (key : String) (labels : List String) (scores : List ℚ) :
    String × Chart :=
  if key = "second" then ("bar", Chart.bar labels scores "#4a90e2")
  else if key = "first" then ("radar", Chart.radar labels scores)
  else if key = "third" then ("donut", Chart.donut labels scores)
  else if key = "fourth" then ("seven_segment", Chart.seven_segment labels scores)
  else if key = "fifth" then ("vark_circles", Chart.vark_circles scores labels)
  else ("variable_radius", Chart.variable_radius labels scores)

def RAW3 : RawPsychometricTest :=
  { key_name := "UNKNOWN"
    category := "Cat"
    json_result := some "\x7b\"sections\": [\x7b\"section\": \"A\", \"section_score\": \"8/10\"\x7d]\x7d" }

def PS3 : ProcessedSection :=
  { «section» := "A"
    score_percentage := 80
    original_score := "8/10"
    interpretation := "No interpretation available."
    benchmark := some "High" }

def T3 : ProcessedTest :=
  { test_name := "Cat"
    description := some ""
    key_name := "UNKNOWN"
    sections := [PS3]
    charts := [("variable_radius", Chart.variable_radius ["A"] [80])] }

def RAW5 : RawPsychometricTest :=
  { key_name := "first"
    category := "Cat"
    json_result := some "\x7b\"sections\": [\x7b\"section\": \"A\", \"section_score\": \"147.25\"\x7d]\x7d" }

def PS5 : ProcessedSection :=
  { «section» := "A"
    score_percentage := 589 / 4
    original_score := "147.25"
    interpretation := "No interpretation available."
    benchmark := some "High" }

def T5 : ProcessedTest :=
  { test_name := "Cat"
    description := some ""
    key_name := "first"
    sections := [PS5]
    charts := [("radar", Chart.radar ["A"] [589 / 4])] }

/-- First truthy (non-`None`, non-empty) value in a list of optional
strings, with a fallback — the claim's priority-order resolution. -/
def firstTruthy : List (Option String) → String → String
  | [], fb => fb
  | o :: rest, fb => if pyTruthy o then o.getD "" else firstTruthy rest fb

/-- The interpretation resolution as the claim words it: explicit
`interpretation`, then `description`, then `representation`, then the
literal sentinel; first non-empty value wins. -/
def resolveInterpRef (sec : SectionData) : String :=
  firstTruthy [sec.interpretation, sec.description, sec.representation]
    "No interpretation available."

def RAW6 : RawPsychometricTest :=
  { key_name := "first"
    category := "Cat"
    json_result := some "\x7b\"sections\": [\x7b\"section\": \"A\", \"section_score\": \"10\", \"description\": \"desc\"\x7d]\x7d" }

def T6 : ProcessedTest :=
  { test_name := "Cat"
    description := some ""
    key_name := "first"
    sections := [{ «section» := "A"
                   score_percentage := 10
                   original_score := "10"
                   interpretation := "desc"
                   benchmark := some "Below Average" }]
    charts := [("radar", Chart.radar ["A"] [10])] }

def SEC6 : SectionData :=
  { «section» := "A"
    description := some "desc"
    representation := some ""
    interpretation := some ""
    section_score := "10" }

/-! ## Helper lemmas about `process_raw` -/

lemma finalize_ok {nd : Json × Json} {k : String} {secs : List SectionData}
    {ch : List (String × Chart)} {t : ProcessedTest}
    (h : finalize nd k secs ch = .ok t) :
    t.sections = secs.map processSection ∧ t.charts = ch ∧ t.key_name = k := by
  rcases nd with ⟨n1, n2⟩
  cases n1 <;> cases n2 <;> simp [finalize] at h <;> simp [← h]

/-- Shape of every successful `process_raw` run: the sections come from
`parsed_sections` mapped through the per-section loop, and the chart map is
empty for zero sections and otherwise produced by the key dispatch. -/
lemma process_raw_ok_shape {raw : RawPsychometricTest} {t : ProcessedTest}
    (h : process_raw raw = .ok t) :
    ∃ secs, parsed_sections raw = .ok secs ∧
      t.sections = secs.map processSection ∧
      ((secs = [] ∧ t.charts = []) ∨
       (secs ≠ [] ∧
         dispatch_charts (if raw.key_name = "" then "default" else pyLower raw.key_name)
           (secs.map (·.«section»)) (secs.map (fun s => parse_score s.section_score)) =
           .ok t.charts)) := by
  unfold process_raw at h
  cases hps : parsed_sections raw with
  | error e => rw [hps] at h; exact absurd h (by simp)
  | ok secs =>
    rw [hps] at h
    simp only at h
    refine ⟨secs, rfl, ?_⟩
    cases hch : (if (secs.map (fun s => parse_score s.section_score)).isEmpty then
        (.ok [] : Except String (List (String × Chart)))
      else dispatch_charts (if raw.key_name = "" then "default" else pyLower raw.key_name)
        (secs.map (·.«section»)) (secs.map (fun s => parse_score s.section_score))) with
    | error e => rw [hch] at h; exact absurd h (by simp)
    | ok charts =>
      rw [hch] at h
      obtain ⟨hsec, hcharts, _⟩ := finalize_ok h
      refine ⟨hsec, ?_⟩
      by_cases hs : secs = []
      · subst hs
        simp at hch
        exact Or.inl ⟨rfl, by rw [hcharts, ← hch]⟩
      · right
        refine ⟨hs, ?_⟩
        rw [if_neg (by simp [List.isEmpty_iff, hs])] at hch
        rw [hcharts, ← hch]

/-! ## C4: benchmark tiers -/

/-- C4: `get_benchmark` is total and non-overlapping: a score is classified
"High" exactly when `75 ≤ s`, "Above Average" exactly when `60 ≤ s < 75`,
"Average" exactly when `40 ≤ s < 60`, and "Below Average" exactly when
`s < 40`, with every boundary inclusive on the lower end. -/
theorem get_benchmark_tiers (s : ℚ) :
    (get_benchmark s = "High" ↔ 75 ≤ s) ∧
    (get_benchmark s = "Above Average" ↔ 60 ≤ s ∧ s < 75) ∧
    (get_benchmark s = "Average" ↔ 40 ≤ s ∧ s < 60) ∧
    (get_benchmark s = "Below Average" ↔ s < 40) := by
  unfold get_benchmark
  split_ifs with h1 h2 h3 <;>
    refine ⟨?_, ?_, ?_, ?_⟩ <;> simp_all <;> first | linarith | (intro h; linarith)

/-- C4 witness: the claim's boundary examples, `75 → High` and
`74.9 → Above Average`. -/
theorem get_benchmark_tiers_witness :
    get_benchmark 75 = "High" ∧ get_benchmark (749 / 10) = "Above Average" :=
  ⟨(get_benchmark_tiers 75).1.mpr (by norm_num),
   (get_benchmark_tiers (749 / 10)).2.1.mpr (by norm_num)⟩

/-! ## C9: gauge needle angle -/

/-- C9: the gauge needle angle is the deterministic formula
`start_angle - total_span * (value - min)/(max - min)` with a 270° span
starting at 225°, and at the range midpoint the needle sits exactly halfway
through the sweep (135° past the start). -/
theorem gauge_needle_midpoint (value min_val max_val : ℚ) (h : max_val ≠ min_val) :
    gauge_needle_angle value min_val max_val =
      225 - 270 * (value - min_val) / (max_val - min_val) ∧
    gauge_needle_angle ((min_val + max_val) / 2) min_val max_val = 225 - 270 / 2 := by
  constructor
  · rfl
  · unfold gauge_needle_angle gauge_start_angle gauge_total_span
    have hne : max_val - min_val ≠ 0 := sub_ne_zero.mpr h
    field_simp
    ring

/-- C9 witness: for `value = 50, min = 0, max = 100` the needle angle is
`225 - 135 = 90` degrees, the angular midpoint of the 270° sweep. -/
theorem gauge_needle_midpoint_witness :
    gauge_needle_angle 50 0 100 = 225 - 270 / 2 := by
  have h := (gauge_needle_midpoint 50 0 100 (by norm_num)).2
  norm_num at h ⊢
  exact h

/-! ## C1: parse_score -/

/-- C1: `parse_score` never raises (it is a total function into `ℚ`); when
the input contains `/` and splits into exactly two number-parsing pieces the
result is `round(n/d*100, 1)` (or `0.0` for denominator `0`); with no `/`
the result is the direct numeric parse, defaulting to `0.0`; every other
shape (wrong arity, non-numeric piece) yields `0.0`. -/
theorem parse_score_spec (s : String) :
    (s.data.contains '/' = true →
      ((∀ a b n d, pySplit s '/' = [a, b] → parseFloat a = some n → parseFloat b = some d →
          parse_score s = if d = 0 then 0 else round1 (n / d * 100)) ∧
       ((¬ ∃ a b n d, pySplit s '/' = [a, b] ∧ parseFloat a = some n ∧ parseFloat b = some d) →
          parse_score s = 0))) ∧
    (s.data.contains '/' = false → parse_score s = (parseFloat s).getD 0) := by
  constructor
  · intro hc
    have hm : '/' ∈ s.data := by simpa using hc
    constructor
    · intro a b n d hsplit ha hb
      simp [parse_score, hm, hsplit, ha, hb]
    · intro hne
      rcases hl : pySplit s '/' with _ | ⟨a, _ | ⟨b, _ | ⟨c, rest⟩⟩⟩
      · simp [parse_score, hm, hl]
      · cases hA : parseFloat a <;> simp [parse_score, hm, hl, hA]
      · cases hA : parseFloat a with
        | none => simp [parse_score, hm, hl, hA]
        | some va =>
          cases hB : parseFloat b with
          | none => simp [parse_score, hm, hl, hA, hB]
          | some vb => exact absurd ⟨a, b, va, vb, hl, hA, hB⟩ hne
      · cases hA : parseFloat a <;> cases hB : parseFloat b <;>
          simp [parse_score, hm, hl, hA, hB]
  · intro hc
    have hm : '/' ∉ s.data := by simpa using hc
    simp [parse_score, hm]

/-- C1 witness: the fraction, zero-denominator and failure cases at concrete
inputs, each obtained by applying `parse_score_spec`. -/
theorem parse_score_spec_witness :
    parse_score "10/4" = round1 (10 / 4 * 100) ∧ parse_score "10/0" = 0 ∧
    parse_score "abc" = 0 := by
  refine ⟨?_, ?_, ?_⟩
  · have h := ((parse_score_spec "10/4").1 (by decide)).1 "10" "4" 10 4
      (by decide) (by decide) (by decide)
    rw [h, if_neg (by norm_num)]
  · have h := ((parse_score_spec "10/0").1 (by decide)).1 "10" "0" 10 0
      (by decide) (by decide) (by decide)
    rw [h, if_pos rfl]
  · have h := (parse_score_spec "abc").2 (by decide)
    rw [h]; decide

/-! ## C10: seven-segment color bounds -/

lemma segSlices_ok_or_err (colors : List String) (n : ℕ) :
    ∀ (data : List (String × ℚ)) (i : ℕ), i ≤ colors.length →
      ((i + data.length ≤ colors.length → ∃ l, segSlices colors n i data = .ok l) ∧
       (colors.length < i + data.length →
          segSlices colors n i data = .error "IndexError")) := by
  intro data
  induction data with
  | nil =>
    intro i hi
    exact ⟨fun _ => ⟨[], rfl⟩, fun hlt => absurd hlt (by simp only [List.length_nil]; omega)⟩
  | cons hd tl ih =>
    intro i hi
    rcases hd with ⟨l, v⟩
    constructor
    · intro hle
      have hi_lt : i < colors.length := by simp at hle ⊢; omega
      cases hg : colors.get? i with
      | none => exact absurd (List.get?_eq_none.mp hg) (by omega)
      | some c =>
        obtain ⟨l2, hl2⟩ := (ih (i + 1) (by omega)).1 (by simp at hle ⊢; omega)
        exact ⟨_, by simp only [segSlices]; rw [hg, hl2]⟩
    · intro hlt
      by_cases hgi : i < colors.length
      · cases hg : colors.get? i with
        | none => exact absurd (List.get?_eq_none.mp hg) (by omega)
        | some c =>
          have hrec := (ih (i + 1) (by omega)).2 (by simp at hlt ⊢; omega)
          simp only [segSlices]; rw [hg, hrec]
      · have hg : colors.get? i = none := List.get?_eq_none.mpr (by omega)
        simp only [segSlices]; rw [hg]

/-- C10: the per-slice color list of the seven-segment renderer is the 7
base colors doubled and truncated, so the `colors[i]` lookup stays in
bounds for at most 14 label/score pairs and the renderer succeeds; for more
than 14 pairs the lookup at index 14 is out of bounds and the renderer
raises `IndexError` instead of producing an image. -/
theorem seven_segment_color_bounds (labels : List String) (scores : List ℚ) :
    ((labels.zip scores).length ≤ 14 →
      ∃ slices, generate_seven_segment_chart labels scores = .ok slices) ∧
    (14 < (labels.zip scores).length →
      generate_seven_segment_chart labels scores = .error "IndexError") := by
  have hcl : ((segBaseColors ++ segBaseColors).take (labels.zip scores).length).length
      = min (labels.zip scores).length 14 := by
    simp [segBaseColors]
  constructor
  · intro h14
    obtain ⟨l, hl⟩ := (segSlices_ok_or_err
        ((segBaseColors ++ segBaseColors).take (labels.zip scores).length)
        (labels.zip scores).length (labels.zip scores) 0 (by omega)).1 (by omega)
    exact ⟨l, hl⟩
  · intro h14
    exact (segSlices_ok_or_err
        ((segBaseColors ++ segBaseColors).take (labels.zip scores).length)
        (labels.zip scores).length (labels.zip scores) 0 (by omega)).2 (by omega)

/-- C10 witness: 15 pairs raise `IndexError`; 3 pairs render. -/
theorem seven_segment_color_bounds_witness :
    generate_seven_segment_chart (List.replicate 15 "x") (List.replicate 15 (50 : ℚ)) =
      .error "IndexError" :=
  (seven_segment_color_bounds (List.replicate 15 "x") (List.replicate 15 (50 : ℚ))).2
    (by decide)

/-! ## C8: variable-radius wedge heights -/

/-- C8 counterexample: for the non-empty score list `[-50]` the code
normalizes by `100` (because `max(scores) > 0` fails), producing the floored
rim `0.3`, while normalizing by the maximum score present as claimed would
give the full rim `1.05`. -/
theorem variable_radius_counterexample :
    (generate_variable_radius_chart ["A"] [-50]).map (·.rimRadius) = [3 / 10] ∧
    vr_rim_radius_claim [-50] (-50) = 21 / 20 ∧ (3 / 10 : ℚ) ≠ 21 / 20 :=
  ⟨by decide, by decide, by norm_num⟩

lemma vr_rim_radius_eq (mv v : ℚ) :
    vr_rim_radius mv v =
      if vr_inner_void_r + (vr_max_rim_r - vr_inner_void_r) * (v / mv) <
          vr_inner_void_r + 1 / 10 then vr_inner_void_r + 1 / 10
      else vr_inner_void_r + (vr_max_rim_r - vr_inner_void_r) * (v / mv) := rfl

lemma vr_rim_radius_ge (mv v : ℚ) : vr_inner_void_r + 1 / 10 ≤ vr_rim_radius mv v := by
  rw [vr_rim_radius_eq]
  split_ifs with h
  · exact le_refl _
  · exact le_of_not_lt h

/-- C8 (amended): every wedge's rim radius is floored at
`inner_void_r + 0.1` and its width spans from the inner void to the rim;
when the maximum score present is positive the height is normalized by that
maximum (`score/max(scores)`, not `score/100`) and mapped linearly between
the fixed inner void radius and outer rim radius; when the maximum is not
positive the code substitutes `100` as the normalizer. -/
theorem variable_radius_heights (labels : List String) (scores : List ℚ) :
    (∀ w ∈ generate_variable_radius_chart labels scores,
        vr_inner_void_r + 1 / 10 ≤ w.rimRadius ∧
        w.wedgeWidth = w.rimRadius - vr_inner_void_r) ∧
    (0 < pyMax scores →
        ∀ w ∈ generate_variable_radius_chart labels scores,
          w.rimRadius = vr_rim_radius (pyMax scores) w.value) ∧
    (pyMax scores ≤ 0 →
        ∀ w ∈ generate_variable_radius_chart labels scores,
          w.rimRadius = vr_rim_radius 100 w.value) := by
  have hmem : ∀ w ∈ generate_variable_radius_chart labels scores,
      w.rimRadius = vr_rim_radius (vr_max_value scores) w.value ∧
      w.wedgeWidth = w.rimRadius - vr_inner_void_r := by
    intro w hw
    simp only [generate_variable_radius_chart, List.mem_map] at hw
    obtain ⟨p, _, hp⟩ := hw
    subst hp
    exact ⟨rfl, rfl⟩
  refine ⟨fun w hw => ⟨?_, (hmem w hw).2⟩, fun hpos w hw => ?_, fun hneg w hw => ?_⟩
  · rw [(hmem w hw).1]
    exact vr_rim_radius_ge _ _
  · have hne : scores ≠ [] := by
      intro h
      rw [h] at hpos
      simp [pyMax] at hpos
    rw [(hmem w hw).1]
    unfold vr_max_value
    rw [if_pos ⟨hne, hpos⟩]
  · rw [(hmem w hw).1]
    unfold vr_max_value
    rw [if_neg (fun hand => absurd hand.2 (not_lt.mpr hneg))]

/-- C8 witness: for scores `[20, 80]` the first wedge's rim is
`0.2 + 0.85 * (20/80) = 0.4125`, normalized by the maximum score `80`. -/
theorem variable_radius_heights_witness :
    vr_inner_void_r + 1 / 10 ≤ (33 / 80 : ℚ) ∧
    ({ label := "A", value := 20, theta1 := -89, theta2 := 89, rimRadius := 33 / 80,
       wedgeWidth := 17 / 80, color := "#4DB6AC" } : VRWedge).rimRadius =
      vr_rim_radius (pyMax [20, 80]) 20 := by
  constructor
  · have h := ((variable_radius_heights ["A", "B"] [20, 80]).1
      { label := "A", value := 20, theta1 := -89, theta2 := 89, rimRadius := 33 / 80,
        wedgeWidth := 17 / 80, color := "#4DB6AC" } (by decide)).1
    exact h
  · exact (variable_radius_heights ["A", "B"] [20, 80]).2.1 (by decide)
      { label := "A", value := 20, theta1 := -89, theta2 := 89, rimRadius := 33 / 80,
        wedgeWidth := 17 / 80, color := "#4DB6AC" } (by decide)

/-! ## C7: radial/donut ring ordering -/

lemma radial_ok {labels : List String} {scores : List ℚ} {c : RadialChart}
    (h : generate_radial_bar_chart labels scores = .ok c) :
    c.ringScores = (List.insertionSort scoreLE (scores.zip (labels.zip
        ((radialBaseColors ++ radialBaseColors).take labels.length)))).map (·.1) ∧
    c.ringLabels = (List.insertionSort scoreLE (scores.zip (labels.zip
        ((radialBaseColors ++ radialBaseColors).take labels.length)))).map (·.2.1) ∧
    c.ringSweepDeg = c.ringScores.map (fun x => x / 100 * 360) ∧
    c.ringRadii = (List.range c.ringScores.length).map
      (fun i : ℕ => 2 + (i : ℚ) * (1 + 1 / 10)) ∧
    c.legendLabels = c.ringLabels.reverse := by
  simp only [generate_radial_bar_chart] at h
  cases hS : List.insertionSort scoreLE (scores.zip (labels.zip
      ((radialBaseColors ++ radialBaseColors).take labels.length))) with
  | nil => rw [hS] at h; exact absurd h (by simp)
  | cons x xs =>
    rw [hS] at h
    simp only [Except.ok.injEq] at h
    rw [← h]
    simp [List.length_map]

/-- C7 (amended): rings are assigned ascending by score (innermost ring is
the lowest score), ring radius is `inner_radius + index*(width+gap)` with
`2 + i*1.1`, the arc sweep is `score/100*360` degrees, and the legend lists
the ring labels reversed (outermost first); the ring ordering is invariant
under every permutation of the input pairs for inputs of at most 14 pairs
(beyond 14, zipping with the doubled 7-color palette truncates the data),
and for scores `[30,70,50]` in any order the rings are `[30,50,70]`. -/
theorem radial_chart_spec :
    (∀ labels scores c, generate_radial_bar_chart labels scores = .ok c →
      c.ringScores.Sorted (· ≤ ·) ∧
      c.ringSweepDeg = c.ringScores.map (fun x => x / 100 * 360) ∧
      c.ringRadii = (List.range c.ringScores.length).map
        (fun i : ℕ => 2 + (i : ℚ) * (1 + 1 / 10)) ∧
      c.legendLabels = c.ringLabels.reverse) ∧
    (∀ l1 s1 l2 s2 c1 c2, l1.length = s1.length → l2.length = s2.length →
      s1.length ≤ 14 → s2.length ≤ 14 → (s1.zip l1).Perm (s2.zip l2) →
      generate_radial_bar_chart l1 s1 = .ok c1 →
      generate_radial_bar_chart l2 s2 = .ok c2 →
      c1.ringScores = c2.ringScores) ∧
    ((generate_radial_bar_chart ["a", "b", "c"] [30, 70, 50]).map (·.ringScores) =
        .ok [30, 50, 70] ∧
     (generate_radial_bar_chart ["b", "c", "a"] [70, 50, 30]).map (·.ringScores) =
        .ok [30, 50, 70]) := by
  have hsorted : ∀ labels scores (c : RadialChart),
      generate_radial_bar_chart labels scores = .ok c → c.ringScores.Sorted (· ≤ ·) := by
    intro labels scores c h
    rw [(radial_ok h).1]
    exact List.pairwise_map.mpr (List.sorted_insertionSort scoreLE _)
  have hperm : ∀ (labels : List String) (scores : List ℚ) (c : RadialChart),
      labels.length = scores.length → scores.length ≤ 14 →
      generate_radial_bar_chart labels scores = .ok c → c.ringScores.Perm scores := by
    intro labels scores c hlen h14 h
    rw [(radial_ok h).1]
    have hcol : ((radialBaseColors ++ radialBaseColors).take labels.length).length
        = labels.length := by
      simp [radialBaseColors]
      omega
    have hzf : (scores.zip (labels.zip
        ((radialBaseColors ++ radialBaseColors).take labels.length))).map
          (fun x => x.1) = scores := by
      apply List.map_fst_zip
      rw [List.length_zip, hcol]
      omega
    have hp2 := List.Perm.map (fun x : ℚ × String × String => x.1)
      (List.perm_insertionSort scoreLE (scores.zip (labels.zip
        ((radialBaseColors ++ radialBaseColors).take labels.length))))
    rw [hzf] at hp2
    exact hp2
  refine ⟨fun labels scores c h =>
      ⟨hsorted labels scores c h, (radial_ok h).2.2.1, (radial_ok h).2.2.2.1,
       (radial_ok h).2.2.2.2⟩, ?_, by constructor <;> rfl⟩
  intro l1 s1 l2 s2 c1 c2 hl1 hl2 h14a h14b hp h1 h2
  have hs12 : s1.Perm s2 := by
    have e1 : (s1.zip l1).map (fun x => x.1) = s1 :=
      List.map_fst_zip _ _ (le_of_eq hl1.symm)
    have e2 : (s2.zip l2).map (fun x => x.1) = s2 :=
      List.map_fst_zip _ _ (le_of_eq hl2.symm)
    have hmp := List.Perm.map (fun x : ℚ × String => x.1) hp
    rw [e1, e2] at hmp
    exact hmp
  have hlen1 : l1.length = s1.length := hl1
  exact List.eq_of_perm_of_sorted
    (((hperm l1 s1 c1 hlen1 h14a h1).trans hs12).trans
      (hperm l2 s2 c2 hl2 h14b h2).symm)
    (hsorted l1 s1 c1 h1) (hsorted l2 s2 c2 h2)

/-- C7 counterexample to the unrestricted permutation-invariance: with 15
pairs the data is zipped against only 14 colors, so the renderer silently
drops the 15th pair; moving the score 99 from the first to the last
position (a permutation of the pairs) changes the ring ordering. -/
theorem radial_truncation_counterexample :
    (S15a.zip L15).Perm (S15b.zip L15) ∧
    (generate_radial_bar_chart L15 S15a).map (·.ringScores) =
      .ok (List.replicate 13 (0 : ℚ) ++ [99]) ∧
    (generate_radial_bar_chart L15 S15b).map (·.ringScores) =
      .ok (List.replicate 14 (0 : ℚ)) ∧
    List.replicate 13 (0 : ℚ) ++ [99] ≠ List.replicate 14 (0 : ℚ) :=
  ⟨by decide, rfl, rfl, by decide⟩

/-- C7 witness: the claim's `[30,70,50]` example; both orderings of the
input pairs produce the ascending ring ordering, via `radial_chart_spec`. -/
theorem radial_chart_spec_witness :
    ({ ringScores := [30, 50, 70], ringLabels := ["a", "c", "b"],
       ringColors := ["#8ED1E6", "#C586B5", "#8D8FB9"],
       ringSweepDeg := [108, 180, 252], ringRadii := [2, 31 / 10, 21 / 5],
       legendLabels := ["b", "c", "a"] } : RadialChart).ringScores =
    ({ ringScores := [30, 50, 70], ringLabels := ["a", "c", "b"],
       ringColors := ["#C586B5", "#8D8FB9", "#8ED1E6"],
       ringSweepDeg := [108, 180, 252], ringRadii := [2, 31 / 10, 21 / 5],
       legendLabels := ["b", "c", "a"] } : RadialChart).ringScores :=
  radial_chart_spec.2.1 ["a", "b", "c"] [30, 70, 50] ["b", "c", "a"] [70, 50, 30] _ _
    rfl rfl (by norm_num) (by norm_num) (by decide) rfl rfl

/-! ## C2: malformed content handling in process_raw -/

/-- C2 counterexample: a `sections` entry that is an empty JSON object is
missing the required `section`/`section_score` fields; the resulting
pydantic `ValidationError` is not caught (only `json.JSONDecodeError` is),
so `process_raw` raises instead of returning a `ProcessedTest`. -/
theorem process_raw_bad_section_raises :
    process_raw RAW2 = .error "ValidationError" := rfl

/-- C2 (amended): `process_raw` returns a `ProcessedTest` with empty
sections and empty charts — without raising — whenever `json_result` is
absent, empty, not valid JSON, or valid JSON that is not an object; but a
`sections` entry that is missing required fields or of the wrong type
raises an uncaught validation error (see the counterexample). -/
theorem process_raw_fully_malformed_ok (raw : RawPsychometricTest)
    (h : raw.json_result = none ∨ raw.json_result = some "" ∨
      (∀ s, raw.json_result = some s →
        json_loads s = none ∨ ∃ j, json_loads s = some j ∧ j.isObj = false)) :
    (process_raw raw).map (fun t => (t.sections, t.charts)) = .ok ([], []) := by
  cases hjr : raw.json_result with
  | none => simp [process_raw, parsed_sections, resolve_name_json, finalize, Except.map, hjr]
  | some s =>
    rcases h with h | h | h
    · rw [hjr] at h; cases h
    · rw [hjr] at h
      injection h with h
      subst h
      simp [process_raw, parsed_sections, resolve_name_json, finalize, Except.map, hjr]
    · have hs := h s hjr
      by_cases hse : s = ""
      · subst hse
        simp [process_raw, parsed_sections, resolve_name_json, finalize, Except.map, hjr]
      · rcases hs with hn | ⟨j, hj, hobj⟩
        · simp [process_raw, parsed_sections, resolve_name_json, finalize, Except.map,
            hjr, hse, hn]
        · cases j <;>
            simp_all [process_raw, parsed_sections, resolve_name_json, finalize,
              Except.map, Json.isObj, hse]

/-- C2 witness: a payload that is not JSON at all degrades to a
`ProcessedTest` with empty sections and charts. -/
theorem process_raw_fully_malformed_ok_witness :
    (process_raw RAW2b).map (fun t => (t.sections, t.charts)) = .ok ([], []) :=
  process_raw_fully_malformed_ok RAW2b (Or.inr (Or.inr (fun s hs => by
    injection hs with h
    subst h
    exact Or.inl rfl)))

/-! ## C3: chart dispatch table -/

lemma dispatch_charts_ok {key : String} {labels : List String} {scores : List ℚ}
    {charts : List (String × Chart)}
    (h : dispatch_charts key labels scores = .ok charts) :
    charts = [chartTableSpec key labels scores] := by
  unfold dispatch_charts at h
  unfold chartTableSpec
  split_ifs at h ⊢ <;>
    first
    | exact (Except.ok.inj h).symm
    | (revert h
       cases hg : generate_radial_bar_chart labels scores with
       | error e => intro h; exact absurd h (by simp)
       | ok c => intro h; exact (Except.ok.inj h).symm)
    | (revert h
       cases hg : generate_seven_segment_chart labels scores with
       | error e => intro h; exact absurd h (by simp)
       | ok c => intro h; exact (Except.ok.inj h).symm)

/-- C3: a successful `process_raw` with zero parsed sections has an empty
chart mapping regardless of key; with at least one section the mapping
holds exactly one entry, selected case-insensitively from the lowercased
`key_name` (empty `key_name` becomes `"default"`, hence, like every unknown
key, the default variable-radius chart). -/
theorem process_raw_chart_dispatch (raw : RawPsychometricTest) (t : ProcessedTest)
    (h : process_raw raw = .ok t) :
    (t.sections = [] → t.charts = []) ∧
    (t.sections ≠ [] →
      t.charts = [chartTableSpec
        (if raw.key_name = "" then "default" else pyLower raw.key_name)
        (t.sections.map (·.«section»)) (t.sections.map (·.score_percentage))]) := by
  obtain ⟨secs, hps, hsec, hdisj⟩ := process_raw_ok_shape h
  constructor
  · intro hempty
    rcases hdisj with ⟨_, hch⟩ | ⟨hne, _⟩
    · exact hch
    · rw [hsec] at hempty
      exact absurd (List.map_eq_nil_iff.mp hempty) hne
  · intro hne
    rcases hdisj with ⟨hnil, _⟩ | ⟨hsne, hch⟩
    · exact absurd (by rw [hsec, hnil]; rfl) hne
    · have hlab : t.sections.map (·.«section») = secs.map (·.«section») := by
        simp [hsec, List.map_map, processSection]
      have hsco : t.sections.map (·.score_percentage) =
          secs.map (fun s => parse_score s.section_score) := by
        simp [hsec, List.map_map, processSection]
      rw [hlab, hsco]
      exact dispatch_charts_ok hch

/-- C3 witness: an unknown key with one valid section gets exactly the
default variable-radius chart, via `process_raw_chart_dispatch`. -/
theorem process_raw_chart_dispatch_witness :
    T3.charts = [chartTableSpec "unknown" ["A"] [80]] := by
  have h := (process_raw_chart_dispatch RAW3 T3 rfl).2 (by decide)
  exact h

/-! ## C5: score_percentage invariants -/

/-- C5 counterexample: the plain numeric score `"147.25"` passes straight
through `parse_score`, so the produced `score_percentage` is `147.25` —
outside `[0,100]` and not rounded to one decimal place. -/
theorem score_percentage_counterexample :
    (process_raw RAW5).map (fun t => t.sections.map (·.score_percentage)) =
      .ok [589 / 4] ∧
    ¬ ((589 / 4 : ℚ) ≤ 100) ∧ round1 (589 / 4) ≠ 589 / 4 :=
  ⟨rfl, by norm_num, by decide⟩

/-- C5 (amended): `score_percentage` is always defined and equals
`parse_score(original_score)` — so unparseable raw scores yield `0.0`
rather than an error and fraction scores are rounded to one decimal — but
plain numeric scores pass through unrounded and unclamped, so it need not
lie in `[0,100]`. -/
theorem score_percentage_eq_parse (raw : RawPsychometricTest) (t : ProcessedTest)
    (h : process_raw raw = .ok t) :
    ∀ ps ∈ t.sections, ps.score_percentage = parse_score ps.original_score := by
  obtain ⟨secs, _, hsec, _⟩ := process_raw_ok_shape h
  intro ps hps
  rw [hsec] at hps
  simp only [List.mem_map] at hps
  obtain ⟨sec, _, rfl⟩ := hps
  rfl

/-- C5 witness: the section produced from `RAW5` satisfies the invariant. -/
theorem score_percentage_eq_parse_witness :
    PS5.score_percentage = parse_score PS5.original_score :=
  score_percentage_eq_parse RAW5 T5 rfl PS5 (by decide)

/-! ## C6: interpretation resolution -/

lemma pyTruthy_getD {o : Option String} (h : pyTruthy o = true) : o.getD "" ≠ "" := by
  cases o with
  | none => simp [pyTruthy] at h
  | some s => simpa [pyTruthy] using h

/-- C6: the interpretation the per-section loop stores is exactly the
priority-order first-non-empty resolution, it is never empty, and every
section of a successful `process_raw` run carries it. -/
theorem interpretation_resolution :
    (∀ sec : SectionData,
      resolveInterp sec = resolveInterpRef sec ∧ resolveInterp sec ≠ "") ∧
    (∀ raw t secs, process_raw raw = .ok t → parsed_sections raw = .ok secs →
      t.sections.map (·.interpretation) = secs.map resolveInterp) ∧
    (∀ raw t, process_raw raw = .ok t → ∀ ps ∈ t.sections, ps.interpretation ≠ "") := by
  have h1 : ∀ sec : SectionData,
      resolveInterp sec = resolveInterpRef sec ∧ resolveInterp sec ≠ "" := by
    intro sec
    refine ⟨rfl, ?_⟩
    unfold resolveInterp
    split_ifs with ha hb hc
    · exact pyTruthy_getD ha
    · exact pyTruthy_getD hb
    · exact pyTruthy_getD hc
    · decide
  refine ⟨h1, ?_, ?_⟩
  · intro raw t secs h hps
    obtain ⟨secs', hps', hsec, _⟩ := process_raw_ok_shape h
    rw [hps] at hps'
    injection hps' with hps'
    subst hps'
    simp [hsec, List.map_map, processSection]
  · intro raw t h ps hps
    obtain ⟨secs, _, hsec, _⟩ := process_raw_ok_shape h
    rw [hsec] at hps
    simp only [List.mem_map] at hps
    obtain ⟨sec, _, rfl⟩ := hps
    exact (h1 sec).2

/-- C6 witness: an empty explicit interpretation falls back to the
description `"desc"`, and the resolved text is non-empty. -/
theorem interpretation_resolution_witness :
    T6.sections.map (·.interpretation) = [SEC6].map resolveInterp ∧
    resolveInterp SEC6 ≠ "" :=
  ⟨interpretation_resolution.2.1 RAW6 T6 [SEC6] rfl rfl,
   (interpretation_resolution.1 SEC6).2⟩
